import Mathlib

/-!
Verification of the vote-tally and comment-tree logic of the GeminiPost
single-page application (src/app.jsx).

The embedding below translates the two pieces of core logic:

* `handleVote` (src/app.jsx lines 266-338): the like/dislike
  read-modify-write.  Its net effect on the four vote fields of the
  addressed document is `applyVote`; the exact sequence of `updateDoc`
  calls it issues is `voteWrites`; the full operation including the
  snapshot read from the `posts` collection and the error path is
  `handleVote` over a `Store`.

* the comment `onSnapshot` callback (src/app.jsx lines 190-193): the
  flat-list-to-forest reconstruction, embedded as `buildForest` (the
  spec calls this operation `build`).

User ids, document ids and vote types are strings, as in the source;
the voter lists are JS arrays, embedded as `List String`; the counters
are JS numbers used integrally, embedded as `Int`.
-/

/-- The vote-relevant fields of a post or comment document, as created by
`handlePostSubmit` / `handleCommentSubmit` in src/app.jsx
(`likes: 0, dislikes: 0, likers: [], dislikers: []`). -/
structure Item where
  likes : Int
  dislikes : Int
  likers : List String
  dislikers : List String
deriving DecidableEq, Repr

/-- Net effect of `handleVote` (src/app.jsx lines 292-337) on the vote
fields of the addressed document: the state after all of its `updateDoc`
calls have landed.  JS `likers.includes(userId)` is membership,
`filter(id => id !== userId)` is `List.filter (fun id => id != userId)`,
`[...likers, userId]` is `likers ++ [userId]`. -/
def applyVote (item : Item) (userId : String) (voteType : String) : Item :=
  let liked := userId ∈ item.likers
  let disliked := userId ∈ item.dislikers
  if voteType = "like" then
    if liked then
      { item with likers := item.likers.filter (fun id => id != userId),
                  likes := item.likes - 1 }
    else
      let item' := { item with likers := item.likers ++ [userId],
                               likes := item.likes + 1 }
      if disliked then
        { item' with dislikers := item.dislikers.filter (fun id => id != userId),
                     dislikes := item.dislikes - 1 }
      else item'
  else
    if disliked then
      { item with dislikers := item.dislikers.filter (fun id => id != userId),
                  dislikes := item.dislikes - 1 }
    else
      let item' := { item with dislikers := item.dislikers ++ [userId],
                               dislikes := item.dislikes + 1 }
      if liked then
        { item' with likers := item.likers.filter (fun id => id != userId),
                     likes := item.likes - 1 }
      else item'

/-- One Firestore `updateDoc` call of `handleVote`: a field-level partial
update that sets only the fields named in it. -/
structure DocWrite where
  likers : Option (List String)
  likes : Option Int
  dislikers : Option (List String)
  dislikes : Option Int
deriving DecidableEq, Repr

/-- Apply one field-level partial update to a document. -/
def applyWrite (item : Item) (w : DocWrite) : Item :=
  { likes := w.likes.getD item.likes,
    dislikes := w.dislikes.getD item.dislikes,
    likers := w.likers.getD item.likers,
    dislikers := w.dislikers.getD item.dislikers }

/-- The sequence of `updateDoc` calls issued by `handleVote`
(src/app.jsx lines 292-337), in program order, with the field values each
one carries.  All values are computed from the snapshot `item` that was
read before any write. -/
def voteWrites (item : Item) (userId : String) (voteType : String) : List DocWrite :=
  let liked := userId ∈ item.likers
  let disliked := userId ∈ item.dislikers
  if voteType = "like" then
    if liked then
      [⟨some (item.likers.filter (fun id => id != userId)), some (item.likes - 1),
        none, none⟩]
    else
      ⟨some (item.likers ++ [userId]), some (item.likes + 1), none, none⟩ ::
        (if disliked then
          [⟨none, none, some (item.dislikers.filter (fun id => id != userId)),
            some (item.dislikes - 1)⟩]
        else [])
  else
    if disliked then
      [⟨none, none, some (item.dislikers.filter (fun id => id != userId)),
        some (item.dislikes - 1)⟩]
    else
      ⟨none, none, some (item.dislikers ++ [userId]), some (item.dislikes + 1)⟩ ::
        (if liked then
          [⟨some (item.likers.filter (fun id => id != userId)), some (item.likes - 1),
            none, none⟩]
        else [])

/-- State invariant of a votable item, from the spec's data model: the
voter lists represent sets (no duplicates), each count equals the
cardinality of its set, and no user is in both sets. -/
def VoteInv (item : Item) : Prop :=
  item.likers.Nodup ∧ item.dislikers.Nodup ∧
  item.likes = item.likers.length ∧ item.dislikes = item.dislikers.length ∧
  ∀ u ∈ item.likers, u ∉ item.dislikers

instance (item : Item) : Decidable (VoteInv item) := by
  unfold VoteInv; infer_instance

/-- The document store visible to `handleVote`: the `posts` collection
(doc id paired with its vote fields) and the per-post `comments`
subcollections (post id, comment id, vote fields). -/
structure Store where
  posts : List (String × Item)
  comments : List (String × String × Item)
deriving DecidableEq, Repr

/-- Result of a `handleVote` call: the store after its writes, plus the
modal error message when it bailed out early. -/
structure VoteOutcome where
  store : Store
  errorMsg : Option String
deriving DecidableEq, Repr

/-- Fold a sequence of partial updates into a document. -/
def writeDoc (item : Item) (ws : List DocWrite) : Item :=
  ws.foldl applyWrite item

/-- `handleVote` (src/app.jsx lines 266-338) against the store.  The base
snapshot is read with
`getDocs(query(collection(posts), where('__name__','==',targetId)))` —
always from the `posts` collection keyed by `targetId`, for posts and
comments alike.  If no post document has that id, the modal shows
"Error: Document not found." and nothing is written.  Otherwise the
writes computed from that post document's data are applied to `ref`,
which is the post `targetId` when `target = "post"` and the comment
`(postId, targetId)` otherwise. -/
def handleVote (store : Store) (target : String) (targetId : String)
    (voteType : String) (postId : String) (userId : String) : VoteOutcome :=
  match (store.posts.filter (fun p => p.1 = targetId)).head? with
  | none => ⟨store, some "Error: Document not found."⟩
  | some pd =>
      let ws := voteWrites pd.2 userId voteType
      if target = "post" then
        ⟨⟨store.posts.map (fun p => if p.1 = targetId then (p.1, writeDoc p.2 ws) else p),
          store.comments⟩, none⟩
      else
        ⟨⟨store.posts,
          store.comments.map (fun c =>
            if c.1 = postId ∧ c.2.1 = targetId then (c.1, c.2.1, writeDoc c.2.2 ws) else c)⟩,
          none⟩

/-- A comment record's fields used by the tree reconstruction
(src/app.jsx lines 185-193): its document id and the optional
`parentCommentId` it was created with (src/app.jsx line 254). -/
structure CommentRec where
  id : String
  parentCommentId : Option String
deriving DecidableEq, Repr

/-- The forest reconstruction of the comments `onSnapshot` callback
(src/app.jsx lines 190-193), the operation the spec calls `build`:
`sortedComments = commentsData.filter(c => !c.parentCommentId)` and, for
each such root, `replies = commentsData.filter(c => c.parentCommentId
=== comment.id)`.  A forest node is a root paired with its replies. -/
def buildForest (records : List CommentRec) : List (CommentRec × List CommentRec) :=
  (records.filter (fun c => c.parentCommentId = none)).map
    (fun root => (root, records.filter (fun c => c.parentCommentId = some root.id)))

/-- The lost-update interleaving from the spec's concurrency section: two
voters `a` then `b` both compute their writes from the same stale
snapshot `item`; `a`'s writes land first, then `b`'s writes (computed
from `item`, not from the state `a` left) land on top. -/
def lostUpdateRun (item : Item) (a b : String) (voteType : String) : Item :=
  let afterFirst := writeDoc item (voteWrites item a voteType)
  writeDoc afterFirst (voteWrites item b voteType)

/-! ## Shared lemmas about the voter-list operations -/

lemma mem_filter_ne (l : List String) (u x : String) :
    x ∈ l.filter (fun y => y != u) ↔ x ∈ l ∧ x ≠ u := by
  simp

lemma filter_ne_of_not_mem (l : List String) (u : String) (h : u ∉ l) :
    l.filter (fun x => x != u) = l := by
  rw [List.filter_eq_self]
  intro a ha
  simp only [bne_iff_ne, ne_eq, decide_eq_true_eq]
  rintro rfl; exact h ha

lemma length_filter_ne_int (l : List String) (u : String) (h : l.Nodup) (hm : u ∈ l) :
    ((l.filter (fun x => x != u)).length : Int) = (l.length : Int) - 1 := by
  rw [(List.Nodup.erase_eq_filter h u).symm, List.length_erase_of_mem hm]
  have : 0 < l.length := List.length_pos_of_mem hm
  omega

lemma nodup_append_singleton (l : List String) (u : String) (h : l.Nodup) (hu : u ∉ l) :
    (l ++ [u]).Nodup := by
  simp [List.nodup_append, h, hu]

/-- Folding the write sequence of `handleVote` over the snapshot it was
computed from yields exactly the net effect `applyVote`: the two
renderings of the source agree. -/
lemma writeDoc_voteWrites (item : Item) (u t : String) :
    writeDoc item (voteWrites item u t) = applyVote item u t := by
  rcases item with ⟨likes, dislikes, likers, dislikers⟩
  by_cases hvt : t = "like" <;>
    by_cases hl : u ∈ likers <;>
      by_cases hd : u ∈ dislikers <;>
        simp [writeDoc, voteWrites, applyVote, applyWrite, hvt, hl, hd]

/-- C1: for every VotableItem satisfying the state invariant (counts equal
the cardinalities of the voter sets, no user in both sets) and every
userId and voteType in {like, dislike} (the source's names for up/down),
the item returned by `applyVote` again satisfies the invariant. -/
theorem C1_applyVote_preserves_invariant (item : Item) (u t : String)
    (hInv : VoteInv item) (ht : t = "like" ∨ t = "dislike") :
    VoteInv (applyVote item u t) := by
  rcases item with ⟨likes, dislikes, likers, dislikers⟩
  obtain ⟨hln, hdn, hlc, hdc, hex⟩ := hInv
  have hlc' : likes = (likers.length : Int) := hlc
  have hdc' : dislikes = (dislikers.length : Int) := hdc
  have hex' : ∀ x ∈ likers, x ∉ dislikers := hex
  have main_like : VoteInv (applyVote ⟨likes, dislikes, likers, dislikers⟩ u "like") := by
    by_cases hl : u ∈ likers
    · have hstep : applyVote ⟨likes, dislikes, likers, dislikers⟩ u "like" =
          ⟨likes - 1, dislikes, likers.filter (fun id => id != u), dislikers⟩ := by
        simp [applyVote, hl]
      rw [hstep]
      refine ⟨hln.filter _, hdn, ?_, hdc', ?_⟩
      · show likes - 1 = ((likers.filter (fun id => id != u)).length : Int)
        rw [length_filter_ne_int likers u hln hl]
        omega
      · intro x hx
        exact hex' x ((mem_filter_ne likers u x).mp hx).1
    · by_cases hd : u ∈ dislikers
      · have hstep : applyVote ⟨likes, dislikes, likers, dislikers⟩ u "like" =
            ⟨likes + 1, dislikes - 1, likers ++ [u],
              dislikers.filter (fun id => id != u)⟩ := by
          simp [applyVote, hl, hd]
        rw [hstep]
        refine ⟨nodup_append_singleton likers u hln hl, hdn.filter _, ?_, ?_, ?_⟩
        · show likes + 1 = ((likers ++ [u]).length : Int)
          rw [List.length_append, List.length_singleton]
          push_cast
          omega
        · show dislikes - 1 = ((dislikers.filter (fun id => id != u)).length : Int)
          rw [length_filter_ne_int dislikers u hdn hd]
          omega
        · intro x hx hmem
          obtain ⟨hxd, hxu⟩ := (mem_filter_ne dislikers u x).mp hmem
          rcases List.mem_append.mp hx with hm | hm
          · exact hex' x hm hxd
          · exact hxu (List.mem_singleton.mp hm)
      · have hstep : applyVote ⟨likes, dislikes, likers, dislikers⟩ u "like" =
            ⟨likes + 1, dislikes, likers ++ [u], dislikers⟩ := by
          simp [applyVote, hl, hd]
        rw [hstep]
        refine ⟨nodup_append_singleton likers u hln hl, hdn, ?_, hdc', ?_⟩
        · show likes + 1 = ((likers ++ [u]).length : Int)
          rw [List.length_append, List.length_singleton]
          push_cast
          omega
        · intro x hx hmem
          rcases List.mem_append.mp hx with hm | hm
          · exact hex' x hm hmem
          · have hxeq : x = u := List.mem_singleton.mp hm
            exact hd (hxeq ▸ hmem)
  have main_dislike : VoteInv (applyVote ⟨likes, dislikes, likers, dislikers⟩ u "dislike") := by
    by_cases hd : u ∈ dislikers
    · have hstep : applyVote ⟨likes, dislikes, likers, dislikers⟩ u "dislike" =
          ⟨likes, dislikes - 1, likers, dislikers.filter (fun id => id != u)⟩ := by
        simp [applyVote, hd]
      rw [hstep]
      refine ⟨hln, hdn.filter _, hlc', ?_, ?_⟩
      · show dislikes - 1 = ((dislikers.filter (fun id => id != u)).length : Int)
        rw [length_filter_ne_int dislikers u hdn hd]
        omega
      · intro x hx hmem
        exact hex' x hx ((mem_filter_ne dislikers u x).mp hmem).1
    · by_cases hl : u ∈ likers
      · have hstep : applyVote ⟨likes, dislikes, likers, dislikers⟩ u "dislike" =
            ⟨likes - 1, dislikes + 1, likers.filter (fun id => id != u),
              dislikers ++ [u]⟩ := by
          simp [applyVote, hl, hd]
        rw [hstep]
        refine ⟨hln.filter _, nodup_append_singleton dislikers u hdn hd, ?_, ?_, ?_⟩
        · show likes - 1 = ((likers.filter (fun id => id != u)).length : Int)
          rw [length_filter_ne_int likers u hln hl]
          omega
        · show dislikes + 1 = ((dislikers ++ [u]).length : Int)
          rw [List.length_append, List.length_singleton]
          push_cast
          omega
        · intro x hx hmem
          obtain ⟨hxl, hxu⟩ := (mem_filter_ne likers u x).mp hx
          rcases List.mem_append.mp hmem with hm | hm
          · exact hex' x hxl hm
          · exact hxu (List.mem_singleton.mp hm)
      · have hstep : applyVote ⟨likes, dislikes, likers, dislikers⟩ u "dislike" =
            ⟨likes, dislikes + 1, likers, dislikers ++ [u]⟩ := by
          simp [applyVote, hl, hd]
        rw [hstep]
        refine ⟨hln, nodup_append_singleton dislikers u hdn hd, hlc', ?_, ?_⟩
        · show dislikes + 1 = ((dislikers ++ [u]).length : Int)
          rw [List.length_append, List.length_singleton]
          push_cast
          omega
        · intro x hx hmem
          rcases List.mem_append.mp hmem with hm | hm
          · exact hex' x hx hm
          · have hxeq : x = u := List.mem_singleton.mp hm
            exact hl (hxeq ▸ hx)
  rcases ht with rfl | rfl
  · exact main_like
  · exact main_dislike

/-- Witness for C1 at a concrete item, user and vote type. -/
theorem C1_witness :
    VoteInv ⟨1, 1, ["a"], ["b"]⟩ ∧
      (("dislike" : String) = "like" ∨ ("dislike" : String) = "dislike") ∧
      VoteInv (applyVote ⟨1, 1, ["a"], ["b"]⟩ "a" "dislike") :=
  ⟨by decide, Or.inr rfl,
    C1_applyVote_preserves_invariant ⟨1, 1, ["a"], ["b"]⟩ "a" "dislike"
      (by decide) (Or.inr rfl)⟩

/-- C3: switching law — if `u` has upvoted (is in likers and not in
dislikers), `applyVote item u "dislike"` puts `u` in dislikers only,
decrements `likes` by 1 and increments `dislikes` by 1. -/
theorem C3_switching_law (item : Item) (u : String)
    (hl : u ∈ item.likers) (hd : u ∉ item.dislikers) :
    u ∈ (applyVote item u "dislike").dislikers ∧
    u ∉ (applyVote item u "dislike").likers ∧
    (applyVote item u "dislike").likes = item.likes - 1 ∧
    (applyVote item u "dislike").dislikes = item.dislikes + 1 := by
  rcases item with ⟨likes, dislikes, likers, dislikers⟩
  have hl' : u ∈ likers := hl
  have hd' : u ∉ dislikers := hd
  have hstep : applyVote ⟨likes, dislikes, likers, dislikers⟩ u "dislike" =
      ⟨likes - 1, dislikes + 1, likers.filter (fun id => id != u),
        dislikers ++ [u]⟩ := by
    simp [applyVote, hl', hd']
  rw [hstep]
  refine ⟨?_, ?_, rfl, rfl⟩
  · exact List.mem_append.mpr (Or.inr (List.mem_singleton.mpr rfl))
  · intro hmem
    exact ((mem_filter_ne likers u u).mp hmem).2 rfl

/-- Witness for C3 at a concrete upvoted item. -/
theorem C3_witness :
    "u" ∈ (⟨1, 0, ["u"], []⟩ : Item).likers ∧
      "u" ∉ (⟨1, 0, ["u"], []⟩ : Item).dislikers ∧
      "u" ∈ (applyVote ⟨1, 0, ["u"], []⟩ "u" "dislike").dislikers ∧
      "u" ∉ (applyVote ⟨1, 0, ["u"], []⟩ "u" "dislike").likers ∧
      (applyVote ⟨1, 0, ["u"], []⟩ "u" "dislike").likes = 0 ∧
      (applyVote ⟨1, 0, ["u"], []⟩ "u" "dislike").dislikes = 1 := by
  have h := C3_switching_law ⟨1, 0, ["u"], []⟩ "u" (by decide) (by decide)
  exact ⟨by decide, by decide, h.1, h.2.1, h.2.2.1, h.2.2.2⟩

/-- C4 counterexample: for an item in which `u` currently dislikes,
voting "like" twice does NOT return the item unchanged — the first
"like" removes the dislike, and the second (the toggle-off) does not
restore it.  The starting item satisfies the state invariant. -/
theorem C4_counterexample :
    VoteInv ⟨0, 1, [], ["u"]⟩ ∧
      applyVote (applyVote ⟨0, 1, [], ["u"]⟩ "u" "like") "u" "like" ≠
        (⟨0, 1, [], ["u"]⟩ : Item) := by
  decide

/-- C4 amended: the double-toggle law holds from the baseline state —
if `u` is in neither voter list, `applyVote (applyVote item u "like") u
"like"` returns `item` unchanged. -/
theorem C4_toggle_identity (item : Item) (u : String)
    (hl : u ∉ item.likers) (hd : u ∉ item.dislikers) :
    applyVote (applyVote item u "like") u "like" = item := by
  rcases item with ⟨likes, dislikes, likers, dislikers⟩
  have hl' : u ∉ likers := hl
  have hd' : u ∉ dislikers := hd
  have h1 : applyVote ⟨likes, dislikes, likers, dislikers⟩ u "like" =
      ⟨likes + 1, dislikes, likers ++ [u], dislikers⟩ := by
    simp [applyVote, hl', hd']
  rw [h1]
  have hmem : u ∈ likers ++ [u] :=
    List.mem_append.mpr (Or.inr (List.mem_singleton.mpr rfl))
  have h2 : applyVote ⟨likes + 1, dislikes, likers ++ [u], dislikers⟩ u "like" =
      ⟨likes + 1 - 1, dislikes, (likers ++ [u]).filter (fun id => id != u),
        dislikers⟩ := by
    simp [applyVote, hmem]
  rw [h2]
  have hfilter : (likers ++ [u]).filter (fun id => id != u) = likers := by
    rw [List.filter_append, filter_ne_of_not_mem likers u hl']
    simp
  rw [hfilter]
  simp [Item.mk.injEq]

/-- Witness for the amended C4 at a concrete baseline item. -/
theorem C4_witness :
    "u" ∉ (⟨2, 3, ["a"], ["b"]⟩ : Item).likers ∧
      "u" ∉ (⟨2, 3, ["a"], ["b"]⟩ : Item).dislikers ∧
      applyVote (applyVote ⟨2, 3, ["a"], ["b"]⟩ "u" "like") "u" "like" =
        (⟨2, 3, ["a"], ["b"]⟩ : Item) :=
  ⟨by decide, by decide,
    C4_toggle_identity ⟨2, 3, ["a"], ["b"]⟩ "u" (by decide) (by decide)⟩

/-- C8 counterexample: a voteType outside {like, dislike} is not
rejected — `applyVote` with voteType "banana" updates the item (it
performs the dislike branch) instead of failing with InvalidArgument
and leaving the item unchanged. -/
theorem C8_counterexample :
    applyVote ⟨0, 0, [], []⟩ "u" "banana" ≠ (⟨0, 0, [], []⟩ : Item) ∧
      applyVote ⟨0, 0, [], []⟩ "u" "banana" =
        applyVote ⟨0, 0, [], []⟩ "u" "dislike" := by
  decide

/-- C8 amended: `handleVote` performs no voteType validation; every
voteType other than "like" is handled exactly as "dislike" (the item is
updated, no InvalidArgument failure exists in the code). -/
theorem C8_no_validation (item : Item) (u t : String) (ht : t ≠ "like") :
    applyVote item u t = applyVote item u "dislike" := by
  simp [applyVote, ht]

/-- Witness for the amended C8 at a concrete invalid vote type. -/
theorem C8_witness :
    ("banana" : String) ≠ "like" ∧
      applyVote ⟨5, 7, ["a"], ["b"]⟩ "u" "banana" =
        applyVote ⟨5, 7, ["a"], ["b"]⟩ "u" "dislike" :=
  ⟨by decide, C8_no_validation ⟨5, 7, ["a"], ["b"]⟩ "u" "banana" (by decide)⟩

/-- C5: lost-update hazard — two voters `a` and `b` on the same item,
both computing their writes from the same stale snapshot with
`likes = 0`, end at `likes = 1` when the second write overwrites the
first, whereas the sequential (correct) execution ends at `likes = 2`. -/
theorem C5_lost_update (item : Item) (a b : String)
    (h0 : item.likes = 0) (hl : item.likers = []) (hab : a ≠ b) :
    (lostUpdateRun item a b "like").likes = 1 ∧
    (applyVote (applyVote item a "like") b "like").likes = 2 := by
  rcases item with ⟨likes, dislikes, likers, dislikers⟩
  have h0' : likes = 0 := h0
  have hl' : likers = [] := hl
  subst h0' hl'
  have hba : ¬ b = a := fun h => hab h.symm
  constructor
  · by_cases had : a ∈ dislikers <;>
      by_cases hbd : b ∈ dislikers <;>
        simp [lostUpdateRun, writeDoc, voteWrites, applyWrite, had, hbd]
  · by_cases had : a ∈ dislikers <;>
      by_cases hbd : b ∈ dislikers <;>
        simp [applyVote, had, hbd, hba,
          List.mem_filter, List.mem_append, List.mem_singleton]

/-- Witness for C5 at the spec's concrete scenario. -/
theorem C5_witness :
    (⟨0, 0, [], []⟩ : Item).likes = 0 ∧ (⟨0, 0, [], []⟩ : Item).likers = [] ∧
      ("a" : String) ≠ "b" ∧
      (lostUpdateRun ⟨0, 0, [], []⟩ "a" "b" "like").likes = 1 ∧
      (applyVote (applyVote ⟨0, 0, [], []⟩ "a" "like") "b" "like").likes = 2 := by
  have h := C5_lost_update ⟨0, 0, [], []⟩ "a" "b" rfl rfl (by decide)
  exact ⟨rfl, rfl, by decide, h.1, h.2⟩

/-! ## Comment-forest lemmas -/

lemma filter_children (records : List CommentRec) (rid : String) :
    (records.filter (fun c => ¬ c.parentCommentId = none)).filter
      (fun c => c.parentCommentId = some rid) =
    records.filter (fun c => c.parentCommentId = some rid) := by
  rw [List.filter_filter]
  apply List.filter_congr
  intro a _
  by_cases h : a.parentCommentId = some rid <;>
    by_cases h2 : a.parentCommentId = none <;> simp_all

lemma orphan_not_in_forest (records : List CommentRec) (r : CommentRec) (p : String)
    (hr : r.parentCommentId = some p)
    (hnoroot : ∀ c ∈ records, c.parentCommentId = none → c.id ≠ p) :
    ∀ node ∈ buildForest records, node.1 ≠ r ∧ r ∉ node.2 := by
  intro node hnode
  unfold buildForest at hnode
  obtain ⟨root, hroot, rfl⟩ := List.mem_map.mp hnode
  obtain ⟨hrootrec, hrootnone⟩ := List.mem_filter.mp hroot
  have hrootnone' : root.parentCommentId = none := by simpa using hrootnone
  constructor
  · show root ≠ r
    intro heq
    rw [heq, hr] at hrootnone'
    exact Option.noConfusion hrootnone'
  · show r ∉ records.filter (fun c => c.parentCommentId = some root.id)
    intro hmem
    obtain ⟨_, hpar⟩ := List.mem_filter.mp hmem
    have hpar' : r.parentCommentId = some root.id := by simpa using hpar
    rw [hr] at hpar'
    have hpid : p = root.id := Option.some.inj hpar'
    exact hnoroot root hrootrec hrootnone' hpid.symm

/-- C2: `build` partitions the records into roots (parentId nil) and
children (parentId set), attaches to each root exactly the sub-sequence
of children whose parentId equals that root's id in the children's
input order, and maps the empty collection to the empty forest. -/
theorem C2_build_partition (records : List CommentRec) :
    buildForest records =
      (records.filter (fun c => c.parentCommentId = none)).map
        (fun root => (root,
          (records.filter (fun c => ¬ c.parentCommentId = none)).filter
            (fun c => c.parentCommentId = some root.id))) ∧
    buildForest [] = [] := by
  constructor
  · unfold buildForest
    apply List.map_congr_left
    intro root _
    rw [filter_children]
  · rfl

/-- C6: orphan-drop policy — a record whose parentId is set but equals
no root's id appears nowhere in the forest built by `build`, neither as
a root nor as any root's child. -/
theorem C6_orphan_dropped (records : List CommentRec) (r : CommentRec) (p : String)
    (hr : r.parentCommentId = some p)
    (hnoroot : ∀ c ∈ records, c.parentCommentId = none → c.id ≠ p) :
    ∀ node ∈ buildForest records, node.1 ≠ r ∧ r ∉ node.2 :=
  orphan_not_in_forest records r p hr hnoroot

/-- Witness for C6 at the spec's example collection
`[{id:1,parent:null},{id:2,parent:1},{id:3,parent:1},{id:4,parent:99}]`. -/
theorem C6_witness :
    ((⟨"1", none⟩, [⟨"2", some "1"⟩, ⟨"3", some "1"⟩]) : CommentRec × List CommentRec) ∈
        buildForest [⟨"1", none⟩, ⟨"2", some "1"⟩, ⟨"3", some "1"⟩, ⟨"4", some "99"⟩] ∧
      (⟨"1", none⟩ : CommentRec) ≠ ⟨"4", some "99"⟩ ∧
      (⟨"4", some "99"⟩ : CommentRec) ∉ [(⟨"2", some "1"⟩ : CommentRec), ⟨"3", some "1"⟩] :=
  ⟨by decide,
    C6_orphan_dropped
      [⟨"1", none⟩, ⟨"2", some "1"⟩, ⟨"3", some "1"⟩, ⟨"4", some "99"⟩]
      ⟨"4", some "99"⟩ "99" rfl (by decide)
      (⟨"1", none⟩, [⟨"2", some "1"⟩, ⟨"3", some "1"⟩]) (by decide)⟩

/-- C7 counterexample: a record whose parentId references a comment id
that exists nowhere in the collection (`{id:4, parent:99}` with ids
{1,4}) is NOT treated as a top-level root — the built forest contains
only the root with id 1. -/
theorem C7_counterexample :
    buildForest [⟨"1", none⟩, ⟨"4", some "99"⟩] =
        [((⟨"1", none⟩ : CommentRec), ([] : List CommentRec))] ∧
      (⟨"1", none⟩ : CommentRec) ≠ ⟨"4", some "99"⟩ := by
  decide

/-- C7 amended: a record whose parentId references a comment that does
not exist in the collection is silently dropped by the reconstruction —
it appears neither as a root nor as any root's child (it is not promoted
to top level). -/
theorem C7_orphan_not_promoted (records : List CommentRec) (r : CommentRec) (p : String)
    (hr : r.parentCommentId = some p)
    (hnone : ∀ c ∈ records, c.id ≠ p) :
    ∀ node ∈ buildForest records, node.1 ≠ r ∧ r ∉ node.2 :=
  orphan_not_in_forest records r p hr (fun c hc _ => hnone c hc)

/-- Witness for the amended C7 at a concrete two-record collection. -/
theorem C7_witness :
    ((⟨"1", none⟩, ([] : List CommentRec)) : CommentRec × List CommentRec) ∈
        buildForest [⟨"1", none⟩, ⟨"4", some "99"⟩] ∧
      (⟨"1", none⟩ : CommentRec) ≠ ⟨"4", some "99"⟩ ∧
      (⟨"4", some "99"⟩ : CommentRec) ∉ ([] : List CommentRec) :=
  ⟨by decide,
    C7_orphan_not_promoted [⟨"1", none⟩, ⟨"4", some "99"⟩]
      ⟨"4", some "99"⟩ "99" rfl (by decide)
      (⟨"1", none⟩, ([] : List CommentRec)) (by decide)⟩

/-- C9 counterexample: in the vote-switch case (user "u" currently
dislikes, votes "like") `handleVote` issues TWO separate `updateDoc`
calls, and the store state after the first write alone is an observable
intermediate state — distinct from both the initial and the final state,
with "u" simultaneously in both voter lists. -/
theorem C9_counterexample :
    voteWrites ⟨0, 1, [], ["u"]⟩ "u" "like" =
        [⟨some ["u"], some 1, none, none⟩, ⟨none, none, some [], some 0⟩] ∧
      "u" ∈ (applyWrite ⟨0, 1, [], ["u"]⟩ ⟨some ["u"], some 1, none, none⟩).likers ∧
      "u" ∈ (applyWrite ⟨0, 1, [], ["u"]⟩ ⟨some ["u"], some 1, none, none⟩).dislikers ∧
      applyWrite ⟨0, 1, [], ["u"]⟩ ⟨some ["u"], some 1, none, none⟩ ≠
        (⟨0, 1, [], ["u"]⟩ : Item) ∧
      applyWrite ⟨0, 1, [], ["u"]⟩ ⟨some ["u"], some 1, none, none⟩ ≠
        writeDoc ⟨0, 1, [], ["u"]⟩ (voteWrites ⟨0, 1, [], ["u"]⟩ "u" "like") := by
  decide

/-- C9 amended: every `handleVote` call issues either a single
`updateDoc` (the toggle-off and the no-opposite-vote cases, which are
atomic), or — in the vote-switch case — exactly two `updateDoc` calls,
and the state after the first write alone has the voting user in both
voter lists at once (an observable partially-updated state). -/
theorem C9_write_granularity (item : Item) (u t : String) :
    (voteWrites item u t).length = 1 ∨
    ∃ w1 w2, voteWrites item u t = [w1, w2] ∧
      u ∈ (applyWrite item w1).likers ∧ u ∈ (applyWrite item w1).dislikers := by
  rcases item with ⟨likes, dislikes, likers, dislikers⟩
  by_cases hvt : t = "like" <;>
    by_cases hl : u ∈ likers <;>
      by_cases hd : u ∈ dislikers <;>
        simp [voteWrites, applyWrite, hvt, hl, hd]

/-- C10: for a vote on a comment, `handleVote` reads its base snapshot
from the `posts` collection keyed by the comment's id; if no post
document shares that id it reports "Error: Document not found." and
writes nothing, and otherwise the new voter lists and counts written to
the comment document are computed from that post document's fields. -/
theorem C10_comment_vote_reads_posts (store : Store) (targetId postId u t : String) :
    ((store.posts.filter (fun p => p.1 = targetId)).head? = none →
      handleVote store "comment" targetId t postId u =
        ⟨store, some "Error: Document not found."⟩) ∧
    (∀ pd, (store.posts.filter (fun p => p.1 = targetId)).head? = some pd →
      handleVote store "comment" targetId t postId u =
        ⟨⟨store.posts,
          store.comments.map (fun c =>
            if c.1 = postId ∧ c.2.1 = targetId then
              (c.1, c.2.1, writeDoc c.2.2 (voteWrites pd.2 u t))
            else c)⟩,
          none⟩) := by
  constructor
  · intro h
    unfold handleVote
    rw [h]
  · intro pd h
    unfold handleVote
    rw [h]
    simp

/-- Witness for C10: a store whose only post has id "p1" and whose only
comment has id "c1" — voting on comment "c1" fails with the not-found
error and leaves the store unchanged; and a store in which a post
document shares the comment's id "c1" — voting on comment "c1" updates
the comment from the post document's (empty) vote fields, overwriting
the comment's own counts. -/
theorem C10_witness :
    handleVote ⟨[("p1", ⟨0, 0, [], []⟩)], [("p1", "c1", ⟨0, 0, [], []⟩)]⟩
        "comment" "c1" "like" "p1" "u" =
      ⟨⟨[("p1", ⟨0, 0, [], []⟩)], [("p1", "c1", ⟨0, 0, [], []⟩)]⟩,
        some "Error: Document not found."⟩ ∧
    handleVote ⟨[("c1", ⟨0, 0, [], []⟩)], [("p1", "c1", ⟨9, 9, ["x"], []⟩)]⟩
        "comment" "c1" "like" "p1" "u" =
      ⟨⟨[("c1", ⟨0, 0, [], []⟩)], [("p1", "c1", ⟨1, 9, ["u"], []⟩)]⟩, none⟩ := by
  constructor
  · exact (C10_comment_vote_reads_posts
      ⟨[("p1", ⟨0, 0, [], []⟩)], [("p1", "c1", ⟨0, 0, [], []⟩)]⟩ "c1" "p1" "u" "like").1
      (by decide)
  · have h := (C10_comment_vote_reads_posts
      ⟨[("c1", ⟨0, 0, [], []⟩)], [("p1", "c1", ⟨9, 9, ["x"], []⟩)]⟩ "c1" "p1" "u" "like").2
      ("c1", ⟨0, 0, [], []⟩) (by decide)
    rw [h]
    decide
